import Mathlib

/-! Shallow embedding of the YenSense staged analysis pipeline
    (src/pipeline/context.py, src/pipeline/stages/*.py, src/pipeline/orchestrator.py).

    Conventions of the embedding:
    - a Python string is a `List Char` (`PyStr`);
    - a Python dict whose keys are strings is an association list
      (Python dict assignment on fresh keys is an append; lookups read the
      first matching key, and every dict built here has distinct keys);
    - numeric leaves (floats and ints of market data) are `ℚ`;
    - a raised Python exception is `Except.error`; collaborator calls that
      may raise are inputs of type `Except PyStr _`;
    - the completion collaborator's reply is an arbitrary input string,
      and the wall-clock timestamp used by `add_error` is an input string:
      both are external inputs of the pipeline;
    - prompt construction feeding the completion collaborator is omitted:
      the collaborator's reply is universally quantified, so the prompt
      never influences any modelled result. -/

abbrev PyStr := List Char

def pstr (s : String) : PyStr := s.data

/-- Python prefix test `hay.startswith(needle)` (first arg is the needle). -/
def list_pre : PyStr → PyStr → Bool
  | [], _ => true
  | _ :: _, [] => false
  | a :: as, b :: bs => a == b && list_pre as bs

/-- Python substring test `needle in hay`. -/
def has_sub (needle : PyStr) : PyStr → Bool
  | [] => needle.isEmpty
  | c :: t => list_pre needle (c :: t) || has_sub needle t

/-- Python `s.lower()`. -/
def py_lower (s : PyStr) : PyStr := s.map Char.toLower

/-- Python `s.strip()`: drop whitespace from both ends. -/
def py_strip (l : PyStr) : PyStr :=
  ((l.dropWhile Char.isWhitespace).reverse.dropWhile Char.isWhitespace).reverse

/-- Python `s.strip(chars)`: drop any of `cs` from both ends. -/
def strip_chars (cs : List Char) (l : PyStr) : PyStr :=
  ((l.dropWhile (cs.contains ·)).reverse.dropWhile (cs.contains ·)).reverse

/-- Python `s.split(sep)` for a one-character separator (used for `'\n'`). -/
def split_on_char (sep : Char) : PyStr → List PyStr
  | [] => [[]]
  | c :: t =>
    if c == sep then [] :: split_on_char sep t
    else
      match split_on_char sep t with
      | [] => [[c]]
      | h :: r => (c :: h) :: r

/-- First occurrence of `sep` in the list: the part before it and the part
    after it (for a non-empty `sep`). -/
def break_sub (sep : PyStr) : PyStr → Option (PyStr × PyStr)
  | [] => none
  | c :: t =>
    if list_pre sep (c :: t) then some ([], (c :: t).drop sep.length)
    else (break_sub sep t).map (fun p => (c :: p.1, p.2))

/-- Fuel-driven worker for `py_split`; each found separator strictly shortens
    the remainder, so fuel `l.length + 1` never runs out. -/
def py_split_aux (sep : PyStr) : ℕ → PyStr → List PyStr
  | 0, l => [l]
  | fuel + 1, l =>
    match break_sub sep l with
    | none => [l]
    | some (a, b) => a :: py_split_aux sep fuel b

/-- Python `s.split(sep)` for a non-empty separator string
    (Python raises on an empty separator; that case is never used here). -/
def py_split (sep l : PyStr) : List PyStr :=
  if sep = [] then [l] else py_split_aux sep (l.length + 1) l

/-- Python `int(re.findall(r'\d+', line)[0])` when a digit run exists:
    value of the first maximal digit run of the line. -/
def first_number (l : PyStr) : Option ℕ :=
  let ds := (l.dropWhile (fun c => !c.isDigit)).takeWhile Char.isDigit
  if ds = [] then none
  else some (ds.foldl (fun acc c => 10 * acc + (c.toNat - 48)) 0)

/-- Round to the nearest integer, ties to even (Python `round` on a number). -/
def round_half_even (x : ℚ) : ℤ :=
  let f := ⌊x⌋
  let r := x - f
  if r < 1 / 2 then f
  else if 1 / 2 < r then f + 1
  else if f % 2 = 0 then f else f + 1

/-- Python `round(x, n)`. -/
def py_round (n : ℕ) (x : ℚ) : ℚ := (round_half_even (x * 10 ^ n) : ℚ) / 10 ^ n

/-- Python `d.get(k)` on a string-keyed dict modelled as an association list. -/
def al_get {α : Type} (k : String) : List (String × α) → Option α
  | [] => none
  | (k2, v) :: t => if k2 = k then some v else al_get k t

/-- Python `"\n".join(parts)`. -/
def join_lines : List PyStr → PyStr
  | [] => []
  | [x] => x
  | x :: y :: t => x ++ ('\n' :: join_lines (y :: t))

/-! ## The pipeline context (src/pipeline/context.py)

    `PipelineContext.__init__` sets every field empty.  `raw_data`,
    `calculations` and `validation_results` start as `{}` and are only ever
    overwritten by their owning stage with one fixed record shape, so they
    are modelled as `Option` of that record (`none` is the empty dict).
    `stage_outputs` maps a stage name to a small summary dict used only for
    introspection; no claim reads the summaries, so only the keys (in dict
    insertion order) are kept. -/

structure AnalysisItem where
  question : PyStr
  analysis : PyStr
  data_needed : PyStr
  insight : PyStr
deriving DecidableEq

inductive MVal where
  | num (q : ℚ)
  | str (s : PyStr)
deriving DecidableEq

structure RawData where
  fx_rates : List (String × ℚ)
  macro_data : List (String × ℚ)
  boj_news : List PyStr
  reuters_news : List PyStr
  nikkei_news : List PyStr
  sentiment_score : ℚ
deriving DecidableEq

structure Calculations where
  basic_metrics : List (String × MVal)
  analyses : List (PyStr × PyStr)
deriving DecidableEq

structure ValidationResults where
  overall_valid : Bool
  confidence_score : ℕ
  issues : List PyStr
  strengths : List PyStr
  caveats : List PyStr
deriving DecidableEq

structure Ctx where
  raw_data : Option RawData
  summary : PyStr
  enhanced_data : List (String × List (String × ℚ))
  questions : List PyStr
  analysis_plan : List AnalysisItem
  calculations : Option Calculations
  validation_results : Option ValidationResults
  report_sections : List (String × PyStr)
  final_report : PyStr
  title : PyStr
  stage_outputs : List String
  errors : List PyStr
deriving DecidableEq

def init_ctx : Ctx :=
  { raw_data := none, summary := [], enhanced_data := [], questions := [],
    analysis_plan := [], calculations := none, validation_results := none,
    report_sections := [], final_report := [], title := [],
    stage_outputs := [], errors := [] }

/-- The string `add_error` appends: `f"[{datetime.now().isoformat()}] {error}"`,
    with the timestamp `now` an external input. -/
def error_entry (now msg : PyStr) : PyStr := '[' :: (now ++ (']' :: ' ' :: msg))

/-- `PipelineContext.add_error`. -/
def add_error (c : Ctx) (now msg : PyStr) : Ctx :=
  { c with errors := c.errors ++ [error_entry now msg] }

/-- `PipelineContext.add_stage_output` (keys only; Python dict assignment
    keeps the position of an existing key). -/
def add_stage_output (l : List String) (name : String) : List String :=
  if l.contains name then l else l ++ [name]

/-- `BaseStage.handle_error`: log, append one error, return the context. -/
def handle_error (stage_name : String) (now : PyStr) (c : Ctx) (e : PyStr) : Ctx :=
  add_error c now (pstr "Error in " ++ pstr stage_name ++ pstr ": " ++ e)

/-! ## Stage 1: DataCollection (src/pipeline/stages/data_collection.py)

    `fetch_all_data` returns a dict; `execute` reads six keys with defaults.
    The fetch result is an input: `.error` is the fetcher raising, `.ok` a
    returned dict whose six relevant keys may each be present or absent
    (the empty dict is the all-`none` record). -/

structure FetchedData where
  fx_rates : Option (List (String × ℚ)) := none
  macro_data : Option (List (String × ℚ)) := none
  boj_news : Option (List PyStr) := none
  reuters_news : Option (List PyStr) := none
  nikkei_news : Option (List PyStr) := none
  sentiment_score : Option ℚ := none

/-- `fetch_all_data()` returning the empty mapping `{}`. -/
def fetch_all_empty : FetchedData := {}

/-- `DataCollectionStage.execute` (the per-stage summary value stored by
    `add_stage_output`, including `_count_data_points`, is not retained). -/
def data_collection_execute (fetched : Except PyStr FetchedData) (now : PyStr) (c : Ctx) : Ctx :=
  match fetched with
  | .error e => handle_error "DataCollectionStage" now c e
  | .ok d =>
    { c with
      raw_data := some
        { fx_rates := d.fx_rates.getD [], macro_data := d.macro_data.getD [],
          boj_news := d.boj_news.getD [], reuters_news := d.reuters_news.getD [],
          nikkei_news := d.nikkei_news.getD [],
          sentiment_score := d.sentiment_score.getD 50 },
      stage_outputs := add_stage_output c.stage_outputs "data_collection" }

/-! ## Stage 4: GapIdentification (src/pipeline/stages/gap_identification.py) -/

/-- The list comprehension of `_identify_gaps`: stripped lines that are
    non-empty and contain `'?'`. -/
def gap_candidate_questions (response : PyStr) : List PyStr :=
  ((split_on_char '\n' response).filter
    (fun line => !(py_strip line).isEmpty && line.contains '?')).map py_strip

/-- The three fixed fallback questions of `_identify_gaps`. -/
def gap_fallback_questions : List PyStr :=
  [pstr "What is driving the current USD/JPY level relative to rate differentials?",
   pstr "How does current market positioning compare to historical norms?",
   pstr "What are the key risks to the current market consensus?"]

/-- `GapIdentificationStage._identify_gaps`, given the completion
    collaborator's reply: keep stripped lines that are non-empty and contain
    `'?'`, pad with three fixed fallback questions when fewer than three
    remain, truncate to seven. -/
def identify_gaps (response : PyStr) : List PyStr :=
  (if (gap_candidate_questions response).length < 3 then
    gap_candidate_questions response ++ gap_fallback_questions
  else gap_candidate_questions response).take 7

/-- `GapIdentificationStage.execute`: `.error` is an exception raised in the
    stage body (a recoverable condition routed to `handle_error`). -/
def gap_identification_execute (response : Except PyStr PyStr) (now : PyStr) (c : Ctx) : Ctx :=
  match response with
  | .error e => handle_error "GapIdentificationStage" now c e
  | .ok r =>
    { c with questions := identify_gaps r,
             stage_outputs := add_stage_output c.stage_outputs "gap_identification" }

/-! ## Stage 5: Reasoning (src/pipeline/stages/reasoning.py) -/

/-- Python `line.split(':', 1)[1].strip()`: the part after the first colon,
    stripped.  Every call site's branch condition guarantees a colon is
    present, so the no-colon case (Python would raise IndexError) is
    unreachable and returns the empty string. -/
def after_colon (l : PyStr) : PyStr := py_strip ((l.dropWhile (fun c => c != ':')).drop 1)

/-- One iteration of the `for line in lines` field scan of
    `ReasoningStage._parse_analysis_plan`. -/
def plan_item_step (it : AnalysisItem) (line : PyStr) : AnalysisItem :=
  let ll := py_lower line
  if has_sub (pstr "analysis:") ll then { it with analysis := after_colon line }
  else if has_sub (pstr "data needed:") ll || has_sub (pstr "data:") ll then
    { it with data_needed := after_colon line }
  else if has_sub (pstr "insight:") ll || has_sub (pstr "tells us:") ll then
    { it with insight := after_colon line }
  else it

/-- Parsing of one `Question` section (the loop body of
    `_parse_analysis_plan`; the question index is inside bounds because the
    loop breaks at `i >= len(questions)`). -/
def parse_plan_item (q : PyStr) (sec : PyStr) : AnalysisItem :=
  let item := (split_on_char '\n' (py_strip sec)).foldl plan_item_step
    { question := q, analysis := [], data_needed := [], insight := [] }
  if item.analysis = [] then
    { item with analysis := pstr "Compare current levels to historical averages" }
  else item

/-- `response.split('Question')[1:]`: the Question-delimited sections. -/
def plan_sections (response : PyStr) : List PyStr :=
  (py_split (pstr "Question") response).drop 1

/-- The body of the section loop of `_parse_analysis_plan`: section `i` is
    paired with question `i`, and the loop breaks at `i >= len(questions)`. -/
def plan_from_sections (response : PyStr) (questions : List PyStr) : List AnalysisItem :=
  ((plan_sections response).zip questions).map (fun p => parse_plan_item p.2 p.1)

/-- The templated record substituted for each of the first three questions
    when no section parsed. -/
def reasoning_fallback_item (q : PyStr) : AnalysisItem :=
  { question := q, analysis := pstr "Analyze current vs historical levels",
    data_needed := pstr "Current and historical data points",
    insight := pstr "Understand if current levels are unusual" }

/-- `ReasoningStage._parse_analysis_plan`: split on `"Question"` markers,
    pair section `i` with question `i` (the loop breaks past the questions),
    and fall back to a templated plan for the first three questions when no
    section parsed. -/
def parse_analysis_plan (response : PyStr) (questions : List PyStr) : List AnalysisItem :=
  if plan_from_sections response questions = [] then
    (questions.take 3).map reasoning_fallback_item
  else plan_from_sections response questions

/-- `ReasoningStage.execute`. -/
def reasoning_execute (response : Except PyStr PyStr) (now : PyStr) (c : Ctx) : Ctx :=
  match response with
  | .error e => handle_error "ReasoningStage" now c e
  | .ok r =>
    { c with analysis_plan := parse_analysis_plan r c.questions,
             stage_outputs := add_stage_output c.stage_outputs "reasoning" }

/-! ## Stage 6: Calculation (src/pipeline/stages/calculation.py) -/

/-- `sentiment = fx_rates.get('sentiment_score', 50) if fx_rates else 50`
    (note: read from the `fx_rates` sub-dict, not from the top level of
    `raw_data`). -/
def sentiment_of (fx : List (String × ℚ)) : ℚ :=
  if fx ≠ [] then (al_get "sentiment_score" fx).getD 50 else 50

/-- The locals `usd_jpy` and `eur_jpy` of `_calculate_basic_metrics`
    (`fx_rates.get(...)` with the fixed defaults). -/
def usd_jpy_of (fx : List (String × ℚ)) : ℚ := (al_get "USD/JPY" fx).getD (147.25 : ℚ)

def eur_jpy_of (fx : List (String × ℚ)) : ℚ := (al_get "EUR/JPY" fx).getD (158.90 : ℚ)

/-- The `implied_eurusd` entry of `_calculate_basic_metrics`: the division
    is guarded by the truthiness of both rates. -/
def implied_metrics (fx : List (String × ℚ)) : List (String × MVal) :=
  if usd_jpy_of fx ≠ 0 ∧ eur_jpy_of fx ≠ 0 then
    [("implied_eurusd", MVal.num (py_round 4 (eur_jpy_of fx / usd_jpy_of fx)))]
  else []

/-- The `if fx_rates:` block of `_calculate_basic_metrics`.  Python float
    division raises ZeroDivisionError on a zero divisor, hence the `Except`:
    `usd_jpy / hist['1_month_ago']` is unguarded, and the `usdjpy_1m_change`
    entry Python assigns just before the raise is discarded with the rest of
    the dict when the exception propagates. -/
def fx_metrics (fx : List (String × ℚ)) (enh : List (String × List (String × ℚ))) :
    Except PyStr (List (String × MVal)) :=
  if fx ≠ [] then
    match al_get "historical_usdjpy" enh with
    | some hist =>
      match al_get "1_month_ago" hist with
      | some one_month =>
        if one_month = 0 then Except.error (pstr "ZeroDivisionError: float division by zero")
        else Except.ok (implied_metrics fx ++
          [("usdjpy_1m_change", MVal.num (py_round 2 (usd_jpy_of fx - one_month))),
           ("usdjpy_1m_change_pct", MVal.num (py_round 2 ((usd_jpy_of fx / one_month - 1) * 100)))])
      | none => Except.ok (implied_metrics fx)
    | none => Except.ok (implied_metrics fx)
  else Except.ok []

/-- The `if 'us_yields' in enhanced:` block (with `jgb_10y = 0.25`). -/
def yield_metrics (enh : List (String × List (String × ℚ))) : List (String × MVal) :=
  match al_get "us_yields" enh with
  | some yields =>
    match al_get "10Y" yields with
    | some y10 => [("rate_differential_10y", MVal.num (py_round 2 (y10 - 0.25)))]
    | none => []
  | none => []

/-- The trailing sentiment entries of `_calculate_basic_metrics` (strict
    thresholds: `'Bullish' if sentiment > 60 else 'Bearish' if sentiment < 40
    else 'Neutral'`). -/
def sentiment_metrics (fx : List (String × ℚ)) : List (String × MVal) :=
  [("sentiment_score", MVal.num (sentiment_of fx)),
   ("sentiment_interpretation", MVal.str
     (if 60 < sentiment_of fx then pstr "Bullish"
      else if sentiment_of fx < 40 then pstr "Bearish" else pstr "Neutral"))]

/-- `CalculationStage._calculate_basic_metrics` (the `macro_data` argument
    is passed by the source but never read in the body). -/
def calculate_basic_metrics (fx macro_data : List (String × ℚ))
    (enh : List (String × List (String × ℚ))) : Except PyStr (List (String × MVal)) :=
  match fx_metrics fx enh with
  | Except.error e => Except.error e
  | Except.ok m_fx => Except.ok (m_fx ++ yield_metrics enh ++ sentiment_metrics fx)

/-- `CalculationStage.execute` with `_perform_calculations` inlined: the
    `fx_rates`/`macro_data` reads use `{}` when `raw_data` is still the
    empty dict; `resps i` is the completion collaborator's reply for
    `analysis_{i+1}` (the collaborator call itself returns a fallback string
    on failure and never raises, per its documented boundary). -/
def calculation_execute (resps : ℕ → PyStr) (now : PyStr) (c : Ctx) : Ctx :=
  match calculate_basic_metrics
      (match c.raw_data with | none => [] | some rd => rd.fx_rates)
      (match c.raw_data with | none => [] | some rd => rd.macro_data)
      c.enhanced_data with
  | .error e => handle_error "CalculationStage" now c e
  | .ok bm =>
    { c with
      calculations := some
        { basic_metrics := bm,
          analyses := (c.analysis_plan.take 5).mapIdx (fun i it => (it.question, resps i)) },
      stage_outputs := add_stage_output c.stage_outputs "calculation" }

/-! ## Stage 7: Validation (src/pipeline/stages/validation.py) -/

/-- One iteration of the `for line in lines` scan of
    `ValidationStage._parse_validation`: the pair is the dict under
    construction and `current_section` (Python string values kept as-is). -/
def validation_step (st : ValidationResults × Option String) (line : PyStr) :
    ValidationResults × Option String :=
  if has_sub (pstr "confidence score") (py_lower line) ||
      has_sub (pstr "confidence:") (py_lower line) then
    match first_number line with
    | some n => ({ st.1 with confidence_score := n }, st.2)
    | none => (st.1, st.2)
  else if has_sub (pstr "major issue") (py_lower line) ||
      has_sub (pstr "serious problem") (py_lower line) then
    (st.1, some "major_issues")
  else if has_sub (pstr "minor issue") (py_lower line) ||
      has_sub (pstr "small concern") (py_lower line) then
    (st.1, some "minor_issues")
  else if has_sub (pstr "strength") (py_lower line) ||
      has_sub (pstr "well-supported") (py_lower line) then
    (st.1, some "strengths")
  else if has_sub (pstr "caveat") (py_lower line) ||
      has_sub (pstr "note") (py_lower line) then
    (st.1, some "caveats")
  else if py_strip line ≠ [] ∧ st.2.isSome then
    if st.2 = some "major_issues" ∧ list_pre (pstr "-") (py_strip line) then
      ({ st.1 with issues := st.1.issues ++ [pstr "MAJOR: " ++ py_strip ((py_strip line).drop 1)],
                   overall_valid := false }, st.2)
    else if st.2 = some "minor_issues" ∧ list_pre (pstr "-") (py_strip line) then
      ({ st.1 with issues := st.1.issues ++ [pstr "MINOR: " ++ py_strip ((py_strip line).drop 1)] }, st.2)
    else if st.2 = some "strengths" ∧ list_pre (pstr "-") (py_strip line) then
      ({ st.1 with strengths := st.1.strengths ++ [py_strip ((py_strip line).drop 1)] }, st.2)
    else if st.2 = some "caveats" ∧ list_pre (pstr "-") (py_strip line) then
      ({ st.1 with caveats := st.1.caveats ++ [py_strip ((py_strip line).drop 1)] }, st.2)
    else (st.1, st.2)
  else (st.1, st.2)

/-- The dict `_parse_validation` starts from. -/
def validation_start : ValidationResults :=
  { overall_valid := true, confidence_score := 70, issues := [],
    strengths := [], caveats := [] }

/-- `ValidationStage._parse_validation`. -/
def parse_validation (response : PyStr) : ValidationResults :=
  let st := (split_on_char '\n' response).foldl validation_step (validation_start, none)
  let v := st.1
  let v :=
    if v.confidence_score < 50 ∨ 0 < (v.issues.filter (fun i => list_pre (pstr "MAJOR") i)).length
    then { v with overall_valid := false } else v
  if v.issues = [] ∧ v.strengths = [] then
    { v with strengths := v.strengths ++ [pstr "Analysis appears logically consistent"],
             caveats := v.caveats ++ [pstr "Limited data available for comprehensive validation"] }
  else v

/-- `ValidationStage.execute` (the stage-output summary keeps only the key). -/
def validation_execute (response : Except PyStr PyStr) (now : PyStr) (c : Ctx) : Ctx :=
  match response with
  | .error e => handle_error "ValidationStage" now c e
  | .ok r =>
    { c with validation_results := some (parse_validation r),
             stage_outputs := add_stage_output c.stage_outputs "validation" }

/-! ## Stage 8: ReportGeneration (src/pipeline/stages/report_generation.py) -/

/-- The seven completion-collaborator replies consumed by the stage
    (appendix, the five sections in generation order, and the title). -/
structure ReportResponses where
  appendix : PyStr
  executive_summary : PyStr
  market_analysis : PyStr
  key_findings : PyStr
  risk_assessment : PyStr
  outlook : PyStr
  title : PyStr

/-- `ReportGenerationStage._generate_sections`: the five fixed keys in
    insertion order. -/
def generate_sections (r : ReportResponses) : List (String × PyStr) :=
  [("executive_summary", r.executive_summary),
   ("market_analysis", r.market_analysis),
   ("key_findings", r.key_findings),
   ("risk_assessment", r.risk_assessment),
   ("outlook", r.outlook)]

/-- `ReportGenerationStage._compile_report`; `date_str` is
    `datetime.now().strftime('%B %d, %Y')`, an external input.  The section
    lookups use a default only to stay total: `execute` always passes the
    dict built by `generate_sections`, which has all five keys. -/
def compile_report (sections : List (String × PyStr)) (appendix date_str : PyStr) : PyStr :=
  join_lines
    [pstr "# YenSense AI Weekly Strategist Report",
     pstr "**Date:** " ++ date_str,
     [],
     pstr "## Executive Summary",
     (al_get "executive_summary" sections).getD [],
     [],
     pstr "## Market Analysis",
     (al_get "market_analysis" sections).getD [],
     [],
     pstr "## Key Findings",
     (al_get "key_findings" sections).getD [],
     [],
     pstr "## Risk Assessment",
     (al_get "risk_assessment" sections).getD [],
     [],
     pstr "## Outlook",
     (al_get "outlook" sections).getD [],
     [],
     pstr "## Appendix: Methodology & Data",
     appendix,
     [],
     pstr "---",
     pstr "*Disclaimer: This report is for informational purposes only and does not constitute financial advice.*"]

/-- `context.raw_data.get('fx_rates', {}).get('USD/JPY', 147.25)`. -/
def usdjpy_rate (c : Ctx) : ℚ :=
  match c.raw_data with
  | none => (147.25 : ℚ)
  | some rd => (al_get "USD/JPY" rd.fx_rates).getD (147.25 : ℚ)

/-- `ReportGenerationStage._generate_title`: strip whitespace then quote
    characters, and substitute the deterministic fallback when the result is
    empty or shorter than 10 characters.  `render` is Python's decimal
    rendering of the rate inside the f-string, left abstract. -/
def clean_title (resp : PyStr) : PyStr :=
  strip_chars [Char.ofNat 39] (strip_chars [Char.ofNat 34] (py_strip resp))

def generate_title (resp : PyStr) (rate : ℚ) (render : ℚ → PyStr) : PyStr :=
  if clean_title resp = [] ∨ (clean_title resp).length < 10 then
    pstr "Japan FX Analysis: USD/JPY at " ++ render rate
  else clean_title resp

/-- `ReportGenerationStage.execute`. -/
def report_generation_execute (inp : Except PyStr ReportResponses) (date_str : PyStr)
    (render : ℚ → PyStr) (now : PyStr) (c : Ctx) : Ctx :=
  match inp with
  | .error e => handle_error "ReportGenerationStage" now c e
  | .ok rs =>
    let sections := generate_sections rs
    { c with
      report_sections := sections,
      final_report := compile_report sections rs.appendix date_str,
      title := generate_title rs.title (usdjpy_rate c) render,
      stage_outputs := add_stage_output c.stage_outputs "report_generation" }

/-! ## Orchestrator (src/pipeline/orchestrator.py)

    A stage under the orchestrator is a name plus a function returning the
    mutated context and, when an unhandled exception escaped the stage, its
    message (the context keeps any in-place mutations made before the
    raise). -/

abbrev StageFun := Ctx → Ctx × Option PyStr

/-- `AnalysisPipeline._should_abort` (the `ValidationStage` low-confidence
    branch only logs a warning and never aborts). -/
def should_abort (c : Ctx) (stage_name : String) : Bool :=
  if stage_name == "DataCollectionStage" && c.raw_data.isNone then true
  else if c.errors.length > 10 then true
  else false

/-- The stage loop of `AnalysisPipeline.run` (`i` is the 1-based stage
    index; on an unhandled exception the orchestrator logs one error and
    aborts when `i ≤ 2`).  Context persistence at the end of the run is I/O
    and never mutates the context, so it is not modelled. -/
def run_stages (now : PyStr) : ℕ → Ctx → List (String × StageFun) → Ctx
  | _, c, [] => c
  | i, c, (name, f) :: rest =>
    match f c with
    | (c2, none) => if should_abort c2 name then c2 else run_stages now (i + 1) c2 rest
    | (c2, some e) =>
      let c3 := add_error c2 now (pstr "Pipeline error in " ++ pstr name ++ pstr ": " ++ e)
      if i ≤ 2 then c3 else run_stages now (i + 1) c3 rest

/-! ## Auxiliary definitions used by the verification statements -/

/-- `contains_in_order s parts` holds when the strings of `parts` occur in
    `s`, in order (each occurrence finishing before the next begins). -/
def contains_in_order : PyStr → List PyStr → Prop
  | _, [] => True
  | s, h :: t => ∃ a b, s = a ++ h ++ b ∧ contains_in_order b t

/-- Some recorded issue is tagged MAJOR (the code's `i.startswith('MAJOR')`). -/
def major_tagged (v : ValidationResults) : Prop :=
  ∃ i ∈ v.issues, list_pre (pstr "MAJOR") i = true

/-- The line marking a confidence score, as tested by `_parse_validation`. -/
def no_confidence_marker (line : PyStr) : Prop :=
  has_sub (pstr "confidence score") (py_lower line) = false ∧
  has_sub (pstr "confidence:") (py_lower line) = false

instance (line : PyStr) : Decidable (no_confidence_marker line) :=
  inferInstanceAs (Decidable (has_sub (pstr "confidence score") (py_lower line) = false ∧
    has_sub (pstr "confidence:") (py_lower line) = false))

/-- A stage whose result context extends the entry context's error log. -/
def err_append_only (f : StageFun) : Prop :=
  ∀ c : Ctx, ∃ new, ((f c).1).errors = c.errors ++ new

/-- A stub for stage 2 that records in `summary` that it was invoked. -/
def stub_stage_two : StageFun := fun c => ({ c with summary := pstr "stage 2 ran" }, none)

def ctx_with_four_questions : Ctx :=
  { init_ctx with questions := [pstr "A?", pstr "B?", pstr "C?", pstr "D?"] }

def rd_sentiment_sixty : RawData :=
  { fx_rates := [("USD/JPY", (0 : ℚ)), ("sentiment_score", (60 : ℚ))],
    macro_data := [], boj_news := [], reuters_news := [], nikkei_news := [],
    sentiment_score := 60 }

def ctx_sentiment_sixty : Ctx := { init_ctx with raw_data := some rd_sentiment_sixty }


/-! ## Generic lemmas about the string primitives -/

theorem list_pre_self_append (p q : List Char) : list_pre p (p ++ q) = true := by
  induction p with
  | nil => rfl
  | cons a t ih => simp [list_pre, ih]

theorem mem_dropWhile_of_neg {a : Char} {l : List Char} (p : Char → Bool)
    (h : a ∈ l) (hp : p a = false) : a ∈ l.dropWhile p := by
  induction l with
  | nil => cases h
  | cons b t ih =>
    rw [List.dropWhile_cons]
    by_cases hb : p b
    · simp only [hb, if_true]
      rcases List.mem_cons.mp h with rfl | hmem
      · rw [hb] at hp; cases hp
      · exact ih hmem
    · simp [hb, h]

theorem mem_py_strip {a : Char} {l : PyStr} (h : a ∈ l) (hw : a.isWhitespace = false) :
    a ∈ py_strip l := by
  unfold py_strip
  rw [List.mem_reverse]
  refine mem_dropWhile_of_neg _ ?_ hw
  rw [List.mem_reverse]
  exact mem_dropWhile_of_neg _ h hw

theorem al_get_append_of_ne {α : Type} (k : String) (l1 l2 : List (String × α))
    (h : ∀ p ∈ l1, p.1 ≠ k) : al_get k (l1 ++ l2) = al_get k l2 := by
  induction l1 with
  | nil => rfl
  | cons a t ih =>
    rw [List.cons_append, al_get]
    rw [if_neg (h a (List.mem_cons_self a t))]
    exact ih (fun p hp => h p (List.mem_cons_of_mem a hp))

theorem filter_length_pos_iff {α : Type} (p : α → Bool) (l : List α) :
    0 < (l.filter p).length ↔ ∃ a ∈ l, p a = true := by
  rw [List.length_pos]
  constructor
  · intro h
    rcases List.exists_mem_of_ne_nil _ h with ⟨a, ha⟩
    exact ⟨a, (List.mem_filter.mp ha).1, (List.mem_filter.mp ha).2⟩
  · rintro ⟨a, ha, hp⟩ hnil
    have : a ∈ l.filter p := List.mem_filter.mpr ⟨ha, hp⟩
    rw [hnil] at this
    cases this

/-! ## In-order containment of substrings (for the final report's layout) -/

theorem contains_in_order_skip (x : PyStr) {s : PyStr} {l : List PyStr}
    (h : contains_in_order s l) : contains_in_order (x ++ s) l := by
  cases l with
  | nil => trivial
  | cons hd t =>
    rcases h with ⟨a, b, rfl, hrest⟩
    exact ⟨x ++ a, b, by simp, hrest⟩

theorem contains_in_order_join {hs ps : List PyStr} (h : List.Sublist hs ps) :
    contains_in_order (join_lines ps) hs := by
  induction h with
  | slnil => trivial
  | cons a h ih =>
    rename_i l1 l2
    cases l2 with
    | nil =>
      rw [List.sublist_nil.mp h]
      trivial
    | cons y t => exact contains_in_order_skip a (contains_in_order_skip ['\n'] ih)
  | cons₂ a h ih =>
    rename_i l1 l2
    cases l2 with
    | nil =>
      rw [List.sublist_nil.mp h]
      exact ⟨[], [], by simp [join_lines], trivial⟩
    | cons y t =>
      exact ⟨[], ['\n'] ++ join_lines (y :: t), by simp [join_lines],
        contains_in_order_skip ['\n'] ih⟩

/-! ## Lemmas about the validation parser -/

theorem list_pre_major (x : PyStr) : list_pre (pstr "MAJOR") (pstr "MAJOR: " ++ x) = true :=
  list_pre_self_append (pstr "MAJOR") (pstr ": " ++ x)

theorem validation_step_effect (st : ValidationResults × Option String) (line : PyStr) :
    ((validation_step st line).1.overall_valid = st.1.overall_valid ∧
     ((validation_step st line).1.issues = st.1.issues ∨
      ∃ x, (validation_step st line).1.issues = st.1.issues ++ [pstr "MINOR: " ++ x])) ∨
    ((validation_step st line).1.overall_valid = false ∧
     ∃ x, (validation_step st line).1.issues = st.1.issues ++ [pstr "MAJOR: " ++ x]) := by
  unfold validation_step
  by_cases h1 : (has_sub (pstr "confidence score") (py_lower line) ||
      has_sub (pstr "confidence:") (py_lower line)) = true
  · rw [if_pos h1]
    cases first_number line <;> simp
  · rw [if_neg h1]
    by_cases h2 : (has_sub (pstr "major issue") (py_lower line) ||
        has_sub (pstr "serious problem") (py_lower line)) = true
    · rw [if_pos h2]; simp
    · rw [if_neg h2]
      by_cases h3 : (has_sub (pstr "minor issue") (py_lower line) ||
          has_sub (pstr "small concern") (py_lower line)) = true
      · rw [if_pos h3]; simp
      · rw [if_neg h3]
        by_cases h4 : (has_sub (pstr "strength") (py_lower line) ||
            has_sub (pstr "well-supported") (py_lower line)) = true
        · rw [if_pos h4]; simp
        · rw [if_neg h4]
          by_cases h5 : (has_sub (pstr "caveat") (py_lower line) ||
              has_sub (pstr "note") (py_lower line)) = true
          · rw [if_pos h5]; simp
          · rw [if_neg h5]
            by_cases h6 : py_strip line ≠ [] ∧ st.2.isSome = true
            · rw [if_pos h6]
              by_cases h7 : st.2 = some "major_issues" ∧ list_pre (pstr "-") (py_strip line) = true
              · rw [if_pos h7]; simp
              · rw [if_neg h7]
                by_cases h8 : st.2 = some "minor_issues" ∧ list_pre (pstr "-") (py_strip line) = true
                · rw [if_pos h8]; simp
                · rw [if_neg h8]
                  by_cases h9 : st.2 = some "strengths" ∧ list_pre (pstr "-") (py_strip line) = true
                  · rw [if_pos h9]; simp
                  · rw [if_neg h9]
                    by_cases h10 : st.2 = some "caveats" ∧ list_pre (pstr "-") (py_strip line) = true
                    · rw [if_pos h10]; simp
                    · rw [if_neg h10]; simp
            · rw [if_neg h6]; simp

theorem validation_step_conf (st : ValidationResults × Option String) (line : PyStr)
    (h : no_confidence_marker line) :
    (validation_step st line).1.confidence_score = st.1.confidence_score := by
  have hc : (has_sub (pstr "confidence score") (py_lower line) ||
      has_sub (pstr "confidence:") (py_lower line)) = false := by
    rw [h.1, h.2]; rfl
  unfold validation_step
  rw [if_neg (by rw [hc]; simp)]
  by_cases h2 : (has_sub (pstr "major issue") (py_lower line) ||
      has_sub (pstr "serious problem") (py_lower line)) = true
  · rw [if_pos h2]
  · rw [if_neg h2]
    by_cases h3 : (has_sub (pstr "minor issue") (py_lower line) ||
        has_sub (pstr "small concern") (py_lower line)) = true
    · rw [if_pos h3]
    · rw [if_neg h3]
      by_cases h4 : (has_sub (pstr "strength") (py_lower line) ||
          has_sub (pstr "well-supported") (py_lower line)) = true
      · rw [if_pos h4]
      · rw [if_neg h4]
        by_cases h5 : (has_sub (pstr "caveat") (py_lower line) ||
            has_sub (pstr "note") (py_lower line)) = true
        · rw [if_pos h5]
        · rw [if_neg h5]
          by_cases h6 : py_strip line ≠ [] ∧ st.2.isSome = true
          · rw [if_pos h6]
            by_cases h7 : st.2 = some "major_issues" ∧ list_pre (pstr "-") (py_strip line) = true
            · rw [if_pos h7]
            · rw [if_neg h7]
              by_cases h8 : st.2 = some "minor_issues" ∧ list_pre (pstr "-") (py_strip line) = true
              · rw [if_pos h8]
              · rw [if_neg h8]
                by_cases h9 : st.2 = some "strengths" ∧ list_pre (pstr "-") (py_strip line) = true
                · rw [if_pos h9]
                · rw [if_neg h9]
                  by_cases h10 : st.2 = some "caveats" ∧ list_pre (pstr "-") (py_strip line) = true
                  · rw [if_pos h10]
                  · rw [if_neg h10]
          · rw [if_neg h6]

theorem validation_step_inv (st : ValidationResults × Option String) (line : PyStr)
    (h : st.1.overall_valid = false → major_tagged st.1) :
    (validation_step st line).1.overall_valid = false →
      major_tagged (validation_step st line).1 := by
  intro hf
  rcases validation_step_effect st line with ⟨hv, hi | ⟨x, hi⟩⟩ | ⟨hv, x, hi⟩
  · rcases h (hv ▸ hf) with ⟨i, him, hip⟩
    exact ⟨i, hi ▸ him, hip⟩
  · rcases h (hv ▸ hf) with ⟨i, him, hip⟩
    exact ⟨i, hi ▸ List.mem_append_left _ him, hip⟩
  · exact ⟨pstr "MAJOR: " ++ x, hi ▸ List.mem_append_right _ (List.mem_singleton.mpr rfl),
      list_pre_major x⟩

theorem validation_fold_inv (lines : List PyStr) (st : ValidationResults × Option String)
    (h : st.1.overall_valid = false → major_tagged st.1) :
    (lines.foldl validation_step st).1.overall_valid = false →
      major_tagged (lines.foldl validation_step st).1 := by
  induction lines generalizing st with
  | nil => exact h
  | cons l t ih => exact ih _ (validation_step_inv st l h)

theorem validation_fold_conf (lines : List PyStr) (st : ValidationResults × Option String)
    (h : ∀ line ∈ lines, no_confidence_marker line) :
    (lines.foldl validation_step st).1.confidence_score = st.1.confidence_score := by
  induction lines generalizing st with
  | nil => rfl
  | cons l t ih =>
    rw [List.foldl_cons, ih _ (fun x hx => h x (List.mem_cons_of_mem l hx)),
      validation_step_conf st l (h l (List.mem_cons_self l t))]

theorem parse_validation_valid_iff (r : PyStr) :
    (parse_validation r).overall_valid = false ↔
    ((parse_validation r).confidence_score < 50 ∨
      ∃ i ∈ (parse_validation r).issues, list_pre (pstr "MAJOR") i = true) := by
  have hstart : (validation_start, (none : Option String)).1.overall_valid = false →
      major_tagged (validation_start, (none : Option String)).1 := by
    intro h
    simp [validation_start] at h
  have hinv := validation_fold_inv (split_on_char '\n' r) (validation_start, none) hstart
  simp only [parse_validation]
  set v1 := ((split_on_char '\n' r).foldl validation_step (validation_start, none)).1 with hv1
  by_cases hC : v1.confidence_score < 50 ∨
      0 < (v1.issues.filter (fun i => list_pre (pstr "MAJOR") i)).length
  · rw [if_pos hC]
    have hrhs : ({ v1 with overall_valid := false } : ValidationResults).confidence_score < 50 ∨
        ∃ i ∈ ({ v1 with overall_valid := false } : ValidationResults).issues,
          list_pre (pstr "MAJOR") i = true := by
      rcases hC with hc | hf
      · exact Or.inl hc
      · exact Or.inr ((filter_length_pos_iff _ _).mp hf)
    by_cases hD : ({ v1 with overall_valid := false } : ValidationResults).issues = [] ∧
        ({ v1 with overall_valid := false } : ValidationResults).strengths = []
    · rw [if_pos hD]
      exact ⟨fun _ => hrhs, fun _ => rfl⟩
    · rw [if_neg hD]
      exact ⟨fun _ => hrhs, fun _ => rfl⟩
  · rw [if_neg hC]
    have hvalid : v1.overall_valid = true := by
      by_contra hfalse
      have hfb : v1.overall_valid = false := by
        cases hov : v1.overall_valid
        · rfl
        · exact absurd hov hfalse
      rcases hinv hfb with ⟨i, hm, hp⟩
      exact hC (Or.inr ((filter_length_pos_iff _ _).mpr ⟨i, hm, hp⟩))
    have hno : ¬(v1.confidence_score < 50 ∨ ∃ i ∈ v1.issues, list_pre (pstr "MAJOR") i = true) := by
      rintro (hc | ⟨i, hm, hp⟩)
      · exact hC (Or.inl hc)
      · exact hC (Or.inr ((filter_length_pos_iff _ _).mpr ⟨i, hm, hp⟩))
    by_cases hD : v1.issues = [] ∧ v1.strengths = []
    · rw [if_pos hD]
      constructor
      · intro hfb
        rw [hvalid] at hfb
        cases hfb
      · intro hr
        exact absurd hr hno
    · rw [if_neg hD]
      constructor
      · intro hfb
        rw [hvalid] at hfb
        cases hfb
      · intro hr
        exact absurd hr hno

theorem parse_validation_conf_eq (r : PyStr) :
    (parse_validation r).confidence_score =
      ((split_on_char '\n' r).foldl validation_step (validation_start, none)).1.confidence_score := by
  simp only [parse_validation]
  set v1 := ((split_on_char '\n' r).foldl validation_step (validation_start, none)).1 with hv1
  by_cases hC : v1.confidence_score < 50 ∨
      0 < (v1.issues.filter (fun i => list_pre (pstr "MAJOR") i)).length
  · rw [if_pos hC]
    by_cases hD : ({ v1 with overall_valid := false } : ValidationResults).issues = [] ∧
        ({ v1 with overall_valid := false } : ValidationResults).strengths = []
    · rw [if_pos hD]
    · rw [if_neg hD]
  · rw [if_neg hC]
    by_cases hD : v1.issues = [] ∧ v1.strengths = []
    · rw [if_pos hD]
    · rw [if_neg hD]

/-- C4: for every completion-collaborator response string, the Validation
    stage's parsed `validation_results` has `overall_valid = false` if and
    only if the parsed `confidence_score` is below 50 or some entry of
    `issues` is tagged MAJOR. -/
theorem validation_overall_valid_iff (r : PyStr) :
    (parse_validation r).overall_valid = false ↔
    ((parse_validation r).confidence_score < 50 ∨
      ∃ i ∈ (parse_validation r).issues, list_pre (pstr "MAJOR") i = true) :=
  parse_validation_valid_iff r

/-- C5: for every completion-collaborator response string none of whose
    lines carries a confidence marker, the parsed result keeps the default
    `confidence_score = 70`, and `overall_valid = true` provided no issue is
    tagged MAJOR. -/
theorem validation_default_confidence (r : PyStr)
    (h : ∀ line ∈ split_on_char '\n' r, no_confidence_marker line) :
    (parse_validation r).confidence_score = 70 ∧
    ((∀ i ∈ (parse_validation r).issues, list_pre (pstr "MAJOR") i = false) →
      (parse_validation r).overall_valid = true) := by
  have hconf : (parse_validation r).confidence_score = 70 := by
    rw [parse_validation_conf_eq r, validation_fold_conf _ _ h]
    rfl
  refine ⟨hconf, fun hno => ?_⟩
  by_contra hfalse
  have hf : (parse_validation r).overall_valid = false := by
    cases hov : (parse_validation r).overall_valid
    · rfl
    · exact absurd hov hfalse
  rcases (parse_validation_valid_iff r).mp hf with hlt | ⟨i, hm, hp⟩
  · rw [hconf] at hlt
    omega
  · rw [hno i hm] at hp
    cases hp

/-- Witness for C5 at a concrete marker-free response. -/
theorem validation_default_confidence_witness :
    (parse_validation (pstr "All good\n- fine")).confidence_score = 70 ∧
    (parse_validation (pstr "All good\n- fine")).overall_valid = true :=
  ⟨(validation_default_confidence (pstr "All good\n- fine") (by decide)).1,
   (validation_default_confidence (pstr "All good\n- fine") (by decide)).2 (by decide)⟩

/-- C6: a recoverable exception raised in a stage body never propagates:
    `execute` returns the same context with exactly one message appended to
    `errors`, every other field — in particular the stage's owned one —
    keeping the value it held on entry. -/
theorem stage_error_containment (e now date_str : PyStr) (render : ℚ → PyStr) (c : Ctx) :
    data_collection_execute (Except.error e) now c =
      { c with errors := c.errors ++ [error_entry now (pstr "Error in DataCollectionStage: " ++ e)] } ∧
    gap_identification_execute (Except.error e) now c =
      { c with errors := c.errors ++ [error_entry now (pstr "Error in GapIdentificationStage: " ++ e)] } ∧
    reasoning_execute (Except.error e) now c =
      { c with errors := c.errors ++ [error_entry now (pstr "Error in ReasoningStage: " ++ e)] } ∧
    validation_execute (Except.error e) now c =
      { c with errors := c.errors ++ [error_entry now (pstr "Error in ValidationStage: " ++ e)] } ∧
    report_generation_execute (Except.error e) date_str render now c =
      { c with errors := c.errors ++ [error_entry now (pstr "Error in ReportGenerationStage: " ++ e)] } :=
  ⟨rfl, rfl, rfl, rfl, rfl⟩

/-! ## Lemmas for the gap-identification stage -/

theorem mem_of_contains {a : Char} {l : List Char} (h : l.contains a = true) : a ∈ l := by
  simpa using h

/-- C8: whenever stage 4 completes normally, the questions list has between
    3 and 7 elements and every element contains a question mark, for every
    completion-collaborator response string. -/
theorem gap_questions_bounds (r now : PyStr) (c : Ctx) :
    3 ≤ (gap_identification_execute (Except.ok r) now c).questions.length ∧
    (gap_identification_execute (Except.ok r) now c).questions.length ≤ 7 ∧
    ∀ q ∈ (gap_identification_execute (Except.ok r) now c).questions, '?' ∈ q := by
  have hq : (gap_identification_execute (Except.ok r) now c).questions = identify_gaps r := rfl
  rw [hq]
  unfold identify_gaps
  set base := gap_candidate_questions r with hbase
  refine ⟨?_, ?_, ?_⟩
  · by_cases h3 : base.length < 3
    · rw [if_pos h3, List.length_take, List.length_append]
      have hfb : gap_fallback_questions.length = 3 := rfl
      omega
    · rw [if_neg h3, List.length_take]
      omega
  · by_cases h3 : base.length < 3
    · rw [if_pos h3, List.length_take]
      omega
    · rw [if_neg h3, List.length_take]
      omega
  · intro q hqmem
    have hqin := List.take_subset 7 _ hqmem
    have hbase_mem : ∀ p ∈ base, '?' ∈ p := by
      intro p hp
      rw [hbase] at hp
      rcases List.mem_map.mp hp with ⟨line, hline, rfl⟩
      have hcond := (List.mem_filter.mp hline).2
      have hcontains : line.contains '?' = true := by
        revert hcond
        cases line.contains '?' <;> simp
      exact mem_py_strip (mem_of_contains hcontains) (by decide)
    by_cases h3 : base.length < 3
    · rw [if_pos h3] at hqin
      rcases List.mem_append.mp hqin with hb | hfb
      · exact hbase_mem q hb
      · simp only [gap_fallback_questions, List.mem_cons, List.mem_singleton,
          List.not_mem_nil, or_false] at hfb
        rcases hfb with h | h | h
        · rw [h]; decide
        · rw [h]; decide
        · rw [h]; decide
    · rw [if_neg h3] at hqin
      exact hbase_mem q hqin

/-- Witness for C8 at a concrete response with no usable line. -/
theorem gap_questions_bounds_witness :
    3 ≤ (gap_identification_execute (Except.ok (pstr "nope")) (pstr "t") init_ctx).questions.length ∧
    '?' ∈ pstr "What is driving the current USD/JPY level relative to rate differentials?" :=
  ⟨(gap_questions_bounds (pstr "nope") (pstr "t") init_ctx).1,
   (gap_questions_bounds (pstr "nope") (pstr "t") init_ctx).2.2 _ (by decide)⟩

/-- C7: whenever stage 8 completes normally, `report_sections` has exactly
    the five fixed keys, `final_report` carries the five section headers in
    fixed order followed by the appendix header and the disclaimer, and
    `title` is at least 10 characters long. -/
theorem report_generation_shape (rs : ReportResponses) (date_str : PyStr) (render : ℚ → PyStr)
    (now : PyStr) (c : Ctx) :
    (report_generation_execute (Except.ok rs) date_str render now c).report_sections.map Prod.fst =
      ["executive_summary", "market_analysis", "key_findings", "risk_assessment", "outlook"] ∧
    contains_in_order (report_generation_execute (Except.ok rs) date_str render now c).final_report
      [pstr "## Executive Summary", pstr "## Market Analysis", pstr "## Key Findings",
       pstr "## Risk Assessment", pstr "## Outlook", pstr "## Appendix: Methodology & Data",
       pstr "*Disclaimer: This report is for informational purposes only and does not constitute financial advice.*"] ∧
    10 ≤ (report_generation_execute (Except.ok rs) date_str render now c).title.length := by
  refine ⟨rfl, ?_, ?_⟩
  · have hfr : (report_generation_execute (Except.ok rs) date_str render now c).final_report =
        compile_report (generate_sections rs) rs.appendix date_str := rfl
    rw [hfr]
    unfold compile_report
    exact contains_in_order_join
      (.cons _ (.cons _ (.cons _ (.cons₂ _ (.cons _ (.cons _ (.cons₂ _ (.cons _ (.cons _
        (.cons₂ _ (.cons _ (.cons _ (.cons₂ _ (.cons _ (.cons _ (.cons₂ _ (.cons _ (.cons _
        (.cons₂ _ (.cons _ (.cons _ (.cons _ (.cons₂ _ .slnil)))))))))))))))))))))))
  · have ht : (report_generation_execute (Except.ok rs) date_str render now c).title =
        generate_title rs.title (usdjpy_rate c) render := rfl
    rw [ht]
    unfold generate_title
    by_cases hcase : clean_title rs.title = [] ∨ (clean_title rs.title).length < 10
    · rw [if_pos hcase, List.length_append]
      have h30 : (pstr "Japan FX Analysis: USD/JPY at ").length = 30 := rfl
      omega
    · rw [if_neg hcase]
      push_neg at hcase
      exact hcase.2

/-- C2 (amended): the length of the Reasoning stage's plan is
    `min 3 len(questions)` when no `Question` section parsed or there are no
    questions, and `min #sections len(questions)` otherwise — so it can be
    strictly below `len(questions)`. -/
theorem parse_analysis_plan_length (r : PyStr) (qs : List PyStr) :
    (parse_analysis_plan r qs).length =
      if plan_sections r = [] ∨ qs = [] then min 3 qs.length
      else min (plan_sections r).length qs.length := by
  unfold parse_analysis_plan
  have hlen : (plan_from_sections r qs).length = min (plan_sections r).length qs.length := by
    unfold plan_from_sections
    rw [List.length_map, List.length_zip]
  by_cases hnil : plan_from_sections r qs = []
  · rw [if_pos hnil]
    have h0 : min (plan_sections r).length qs.length = 0 := by
      rw [← hlen, hnil]
      rfl
    have hor : plan_sections r = [] ∨ qs = [] := by
      rcases Nat.min_eq_zero_iff.mp h0 with h | h
      · exact Or.inl (List.length_eq_zero.mp h)
      · exact Or.inr (List.length_eq_zero.mp h)
    rw [if_pos hor, List.length_map, List.length_take]
  · rw [if_neg hnil]
    have hor : ¬(plan_sections r = [] ∨ qs = []) := by
      rintro (h | h) <;> apply hnil <;> unfold plan_from_sections
      · rw [h]
        rfl
      · rw [h]
        simp
    rw [if_neg hor, hlen]

/-- Counterexample to C2 as stated: on an empty collaborator reply (no
    `Question` marker) with four questions pending, Reasoning completes with
    a 3-element plan, not 4. -/
theorem reasoning_plan_shorter_than_questions :
    (reasoning_execute (Except.ok []) (pstr "t") ctx_with_four_questions).analysis_plan.length = 3 ∧
    (reasoning_execute (Except.ok []) (pstr "t") ctx_with_four_questions).questions.length = 4 := by
  constructor <;> rfl

/-- C1 (amended): when the data fetcher *raises*, stage 1 logs exactly one
    error, `raw_data` stays empty, and the orchestrator aborts right after
    stage 1 for any downstream stage list — `final_report` stays empty and
    no later stage touches the context.  When the fetcher *returns* the
    empty mapping, stage 1 substitutes the default-shaped record, logs no
    error, and the run continues into the remaining stages. -/
theorem data_collection_abort_on_fetch_error (rest : List (String × StageFun)) (e now : PyStr) :
    run_stages now 1 init_ctx
        (("DataCollectionStage",
          fun c => (data_collection_execute (Except.error e) now c, none)) :: rest) =
      data_collection_execute (Except.error e) now init_ctx ∧
    (data_collection_execute (Except.error e) now init_ctx).errors.length = 1 ∧
    (data_collection_execute (Except.error e) now init_ctx).final_report = [] ∧
    run_stages now 1 init_ctx
        (("DataCollectionStage",
          fun c => (data_collection_execute (Except.ok fetch_all_empty) now c, none)) :: rest) =
      run_stages now 2 (data_collection_execute (Except.ok fetch_all_empty) now init_ctx) rest ∧
    (data_collection_execute (Except.ok fetch_all_empty) now init_ctx).errors = [] :=
  ⟨rfl, rfl, rfl, rfl, rfl⟩

/-- Counterexample to C1 as stated: when `fetch_all` *returns* the empty
    mapping (without raising), stage 1 substitutes defaults, logs no error,
    the run does not abort, and stage 2 is invoked. -/
theorem empty_fetch_does_not_abort :
    (run_stages (pstr "t") 1 init_ctx
      [("DataCollectionStage",
        fun c => (data_collection_execute (Except.ok fetch_all_empty) (pstr "t") c, none)),
       ("InitialSummaryStage", stub_stage_two)]).summary = pstr "stage 2 ran" ∧
    (run_stages (pstr "t") 1 init_ctx
      [("DataCollectionStage",
        fun c => (data_collection_execute (Except.ok fetch_all_empty) (pstr "t") c, none)),
       ("InitialSummaryStage", stub_stage_two)]).errors = [] :=
  ⟨rfl, rfl⟩

/-- C9: `add_error` appends exactly one timestamp-prefixed entry, and a run
    over stages that only append to `errors` never removes an entry — the
    log of the starting context is a prefix of the final log, so its length
    is monotonically non-decreasing across every sequence of stage
    executions. -/
theorem errors_append_only_monotone :
    (∀ (c : Ctx) (now msg : PyStr),
      (add_error c now msg).errors = c.errors ++ [error_entry now msg]) ∧
    ∀ (now : PyStr) (stages : List (String × StageFun)) (i : ℕ) (c : Ctx),
      (∀ s ∈ stages, err_append_only s.2) →
      ∃ new, (run_stages now i c stages).errors = c.errors ++ new := by
  refine ⟨fun c now msg => rfl, ?_⟩
  intro now stages
  induction stages with
  | nil => exact fun i c _ => ⟨[], (List.append_nil _).symm⟩
  | cons s rest ih =>
    intro i c hall
    obtain ⟨name, f⟩ := s
    obtain ⟨n1, hn1⟩ := hall ⟨name, f⟩ (List.mem_cons_self _ _) c
    have hn1f : ((f c).1).errors = c.errors ++ n1 := hn1
    rcases hfc : f c with ⟨c2, exc⟩
    have hc2 : c2.errors = c.errors ++ n1 := by
      have h := hn1f
      rw [hfc] at h
      exact h
    cases exc with
    | none =>
      simp only [run_stages, hfc]
      by_cases habort : should_abort c2 name = true
      · rw [if_pos habort]
        exact ⟨n1, hc2⟩
      · rw [if_neg habort]
        obtain ⟨n2, hn2⟩ := ih (i + 1) c2 (fun t ht => hall t (List.mem_cons_of_mem _ ht))
        exact ⟨n1 ++ n2, by rw [hn2, hc2, List.append_assoc]⟩
    | some exn =>
      simp only [run_stages, hfc]
      by_cases hi : i ≤ 2
      · rw [if_pos hi]
        refine ⟨n1 ++ [error_entry now (pstr "Pipeline error in " ++ pstr name ++ pstr ": " ++ exn)], ?_⟩
        show c2.errors ++ _ = _
        rw [hc2, List.append_assoc]
      · rw [if_neg hi]
        obtain ⟨n2, hn2⟩ := ih (i + 1)
          (add_error c2 now (pstr "Pipeline error in " ++ pstr name ++ pstr ": " ++ exn))
          (fun t ht => hall t (List.mem_cons_of_mem _ ht))
        refine ⟨n1 ++ [error_entry now (pstr "Pipeline error in " ++ pstr name ++ pstr ": " ++ exn)] ++ n2, ?_⟩
        rw [hn2]
        show (c2.errors ++ _) ++ n2 = _
        rw [hc2]
        simp [List.append_assoc]

/-- Witness for C9 at a concrete one-stage run. -/
theorem errors_append_only_monotone_witness :
    ∃ new, (run_stages (pstr "t") 1 init_ctx
      [("S", fun c => (add_error c (pstr "t") (pstr "m"), none))]).errors =
        init_ctx.errors ++ new :=
  errors_append_only_monotone.2 (pstr "t")
    [("S", fun c => (add_error c (pstr "t") (pstr "m"), none))] 1 init_ctx
    (by
      intro s hs
      rw [List.mem_singleton] at hs
      subst hs
      intro c
      exact ⟨[error_entry (pstr "t") (pstr "m")], rfl⟩)

/-! ## Lemmas about the calculation stage -/

theorem implied_metrics_keys (fx : List (String × ℚ)) :
    ∀ p ∈ implied_metrics fx, p.1 = "implied_eurusd" := by
  intro p hp
  unfold implied_metrics at hp
  split_ifs at hp
  · rw [List.mem_singleton] at hp
    subst hp
    rfl
  · cases hp

theorem fx_metrics_keys (fx : List (String × ℚ)) (enh : List (String × List (String × ℚ)))
    (m_fx : List (String × MVal)) (h : fx_metrics fx enh = Except.ok m_fx) :
    ∀ p ∈ m_fx,
      p.1 = "implied_eurusd" ∨ p.1 = "usdjpy_1m_change" ∨ p.1 = "usdjpy_1m_change_pct" := by
  intro p hp
  unfold fx_metrics at h
  by_cases hfx : fx ≠ []
  · rw [if_pos hfx] at h
    rcases h1 : al_get "historical_usdjpy" enh with _ | hist <;> rw [h1] at h <;> dsimp only at h
    · injection h with h
      subst h
      exact Or.inl (implied_metrics_keys fx p hp)
    · rcases h2 : al_get "1_month_ago" hist with _ | om <;> rw [h2] at h <;> dsimp only at h
      · injection h with h
        subst h
        exact Or.inl (implied_metrics_keys fx p hp)
      · by_cases h0 : om = 0
        · rw [if_pos h0] at h
          cases h
        · rw [if_neg h0] at h
          injection h with h
          subst h
          rcases List.mem_append.mp hp with hi | htail
          · exact Or.inl (implied_metrics_keys fx p hi)
          · rcases List.mem_cons.mp htail with rfl | htail2
            · exact Or.inr (Or.inl rfl)
            · rw [List.mem_singleton] at htail2
              subst htail2
              exact Or.inr (Or.inr rfl)
  · rw [if_neg hfx] at h
    injection h with h
    subst h
    cases hp

theorem yield_metrics_keys (enh : List (String × List (String × ℚ))) :
    ∀ p ∈ yield_metrics enh, p.1 = "rate_differential_10y" := by
  intro p hp
  unfold yield_metrics at hp
  rcases h1 : al_get "us_yields" enh with _ | yields <;> rw [h1] at hp <;> dsimp only at hp
  · cases hp
  · rcases h2 : al_get "10Y" yields with _ | y10 <;> rw [h2] at hp <;> dsimp only at hp
    · cases hp
    · rw [List.mem_singleton] at hp
      subst hp
      rfl

theorem calculate_basic_metrics_ok (fx macro_data : List (String × ℚ))
    (enh : List (String × List (String × ℚ))) (m : List (String × MVal))
    (h : calculate_basic_metrics fx macro_data enh = Except.ok m) :
    ∃ m_fx, fx_metrics fx enh = Except.ok m_fx ∧
      m = m_fx ++ yield_metrics enh ++ sentiment_metrics fx := by
  unfold calculate_basic_metrics at h
  cases hfx : fx_metrics fx enh with
  | error e =>
    rw [hfx] at h
    cases h
  | ok m_fx =>
    rw [hfx] at h
    injection h with h
    exact ⟨m_fx, rfl, h.symm⟩

/-- C3 (amended): on every normal completion of `_calculate_basic_metrics`
    the sentiment score is read from the `fx_rates` sub-dict (default 50),
    and the bucket uses strict thresholds: "Bullish" iff score > 60,
    "Bearish" iff score < 40, else "Neutral". -/
theorem basic_metrics_sentiment_bucket (fx macro_data : List (String × ℚ))
    (enh : List (String × List (String × ℚ))) (m : List (String × MVal))
    (h : calculate_basic_metrics fx macro_data enh = Except.ok m) :
    al_get "sentiment_score" m = some (MVal.num (sentiment_of fx)) ∧
    al_get "sentiment_interpretation" m = some (MVal.str
      (if 60 < sentiment_of fx then pstr "Bullish"
       else if sentiment_of fx < 40 then pstr "Bearish" else pstr "Neutral")) := by
  obtain ⟨m_fx, hfx, rfl⟩ := calculate_basic_metrics_ok fx macro_data enh m h
  have hkeys : ∀ p ∈ m_fx ++ yield_metrics enh,
      p.1 ≠ "sentiment_score" ∧ p.1 ≠ "sentiment_interpretation" := by
    intro p hp
    rcases List.mem_append.mp hp with h1 | h2
    · rcases fx_metrics_keys fx enh m_fx hfx p h1 with hk | hk | hk <;> rw [hk] <;>
        exact ⟨by decide, by decide⟩
    · rw [yield_metrics_keys enh p h2]
      exact ⟨by decide, by decide⟩
  constructor
  · rw [al_get_append_of_ne _ _ _ (fun p hp => (hkeys p hp).1)]
    rfl
  · rw [al_get_append_of_ne _ _ _ (fun p hp => (hkeys p hp).2)]
    rfl

/-- Witness for C3 at a concrete `fx_rates` dict carrying a score of 70. -/
theorem basic_metrics_sentiment_bucket_witness :
    calculate_basic_metrics [("USD/JPY", (0 : ℚ)), ("sentiment_score", (70 : ℚ))] [] [] =
      Except.ok [("sentiment_score", MVal.num 70),
                 ("sentiment_interpretation", MVal.str (pstr "Bullish"))] ∧
    al_get "sentiment_interpretation"
        [("sentiment_score", MVal.num 70),
         ("sentiment_interpretation", MVal.str (pstr "Bullish"))] =
      some (MVal.str (pstr "Bullish")) := by
  constructor
  · rfl
  · have h := (basic_metrics_sentiment_bucket
      [("USD/JPY", (0 : ℚ)), ("sentiment_score", (70 : ℚ))] [] []
      [("sentiment_score", MVal.num 70),
       ("sentiment_interpretation", MVal.str (pstr "Bullish"))] (by rfl)).2
    have hs : sentiment_of [("USD/JPY", (0 : ℚ)), ("sentiment_score", (70 : ℚ))] = 70 := by
      decide
    rw [hs, if_pos (by norm_num : (60 : ℚ) < 70)] at h
    exact h

/-- Counterexample to C3 as stated: with the sentiment score equal to 60
    (both at the top level of `raw_data` and inside `fx_rates`), the stage
    buckets it as "Neutral", not "Bullish" — the code's thresholds are
    strict. -/
theorem sentiment_sixty_is_neutral :
    (calculation_execute (fun _ => []) (pstr "t") ctx_sentiment_sixty).calculations =
      some ({ basic_metrics :=
               [("sentiment_score", MVal.num 60),
                ("sentiment_interpretation", MVal.str (pstr "Neutral"))],
              analyses := [] } : Calculations) ∧
    (60 : ℚ) ≥ 60 ∧ pstr "Neutral" ≠ pstr "Bullish" :=
  ⟨by rfl, by norm_num, by decide⟩

/-- C10 (amended): `_calculate_basic_metrics` succeeds exactly when it is
    not the case that `fx_rates` is truthy and `enhanced` carries a
    `historical_usdjpy.1_month_ago` entry equal to zero; in particular the
    guarded `implied_eurusd` division never raises, and the only possible
    ZeroDivisionError is the unguarded one-month-change division. -/
theorem basic_metrics_totality_iff (fx macro_data : List (String × ℚ))
    (enh : List (String × List (String × ℚ))) :
    (∃ m, calculate_basic_metrics fx macro_data enh = Except.ok m) ↔
    ¬(fx ≠ [] ∧ (al_get "historical_usdjpy" enh).bind (al_get "1_month_ago") = some 0) := by
  constructor
  · rintro ⟨m, hm⟩ hbad
    obtain ⟨hfx, hhist⟩ := hbad
    have herr : fx_metrics fx enh =
        Except.error (pstr "ZeroDivisionError: float division by zero") := by
      unfold fx_metrics
      rw [if_pos hfx]
      rcases h1 : al_get "historical_usdjpy" enh with _ | hist
      · rw [h1] at hhist
        exact Option.noConfusion hhist
      · rw [h1] at hhist
        have h2 : al_get "1_month_ago" hist = some 0 := hhist
        dsimp only
        rw [h2]
        dsimp only
        rw [if_pos rfl]
    unfold calculate_basic_metrics at hm
    rw [herr] at hm
    cases hm
  · intro hgood
    have hok : ∃ m_fx, fx_metrics fx enh = Except.ok m_fx := by
      unfold fx_metrics
      by_cases hfx : fx ≠ []
      · rw [if_pos hfx]
        rcases h1 : al_get "historical_usdjpy" enh with _ | hist <;> dsimp only
        · exact ⟨_, rfl⟩
        · rcases h2 : al_get "1_month_ago" hist with _ | om <;> dsimp only
          · exact ⟨_, rfl⟩
          · have hom : ¬om = 0 := by
              intro h0
              refine hgood ⟨hfx, ?_⟩
              rw [h1]
              show al_get "1_month_ago" hist = some 0
              rw [h2, h0]
            rw [if_neg hom]
            exact ⟨_, rfl⟩
      · rw [if_neg hfx]
        exact ⟨_, rfl⟩
    obtain ⟨m_fx, hmf⟩ := hok
    refine ⟨m_fx ++ yield_metrics enh ++ sentiment_metrics fx, ?_⟩
    unfold calculate_basic_metrics
    rw [hmf]

/-- Counterexample to C10 as stated: `_calculate_basic_metrics` is not
    total — a zero `historical_usdjpy.1_month_ago` entry makes the
    one-month-change division raise ZeroDivisionError. -/
theorem basic_metrics_zero_division :
    calculate_basic_metrics [("USD/JPY", (147 : ℚ))] []
        [("historical_usdjpy", [("1_month_ago", (0 : ℚ))])] =
      Except.error (pstr "ZeroDivisionError: float division by zero") := rfl
